import Mathlib

/-!
# Verification of the rafiki outgoing-payment subsystem spec

Shallow embedding of:
* `packages/backend/migrations/20211026122545_create_outgoing_payments_table.js`
  (the knex migration creating the `outgoingPayments` table),
* the Quote Engine and Payment Lifecycle State Machine described in the spec
  (their implementation is not among the provided sources; they are modelled
  from the spec's words),
* `packages/frontend/app/routes/payment-pointers.$paymentPointerId.tsx`
  (the Remix loader and action for the payment-pointer detail route).
-/

/-! ## Database schema embedding (knex migration) -/

/-- Column types used by the knex table builder in this repository's
migrations.  `float` and `decimal` are part of knex's builder vocabulary and
are included so that "no floating-point column" is a non-vacuous statement. -/
inductive ColType
  | uuid
  | string
  | integer
  | bigInteger
  | timestamp
  | float
  | decimal
deriving DecidableEq, Repr

/-- A column default, as produced by `defaultTo`. -/
inductive ColDefault
  | intDefault (n : Int)
  | nowDefault
deriving DecidableEq, Repr

/-- One column of a created table: name, type, NOT NULL flag, default. -/
structure Column where
  name : String
  type : ColType
  notNullable : Bool
  default : Option ColDefault
deriving DecidableEq, Repr

/-- A table definition as assembled by the knex table builder callback. -/
structure TableDef where
  columns : List Column
  primaryKey : List String
  indexes : List (List String)
  foreignKeys : List (String × String)
deriving DecidableEq, Repr

/-- The `outgoingPayments` table exactly as `exports.up` builds it. -/
def outgoingPaymentsTable : TableDef :=
  { columns :=
      [ ⟨"id", .uuid, true, none⟩,
        ⟨"state", .string, true, none⟩,
        ⟨"error", .string, false, none⟩,
        ⟨"stateAttempts", .integer, true, some (.intDefault 0)⟩,
        ⟨"description", .string, false, none⟩,
        ⟨"externalRef", .string, false, none⟩,
        ⟨"receivingAccount", .string, false, none⟩,
        ⟨"receivingPayment", .string, false, none⟩,
        ⟨"sendAmountValue", .bigInteger, false, none⟩,
        ⟨"receiveAmountValue", .bigInteger, false, none⟩,
        ⟨"receiveAmountAssetCode", .string, false, none⟩,
        ⟨"receiveAmountAssetScale", .integer, false, none⟩,
        ⟨"quoteTimestamp", .timestamp, false, none⟩,
        ⟨"quoteTargetType", .string, false, none⟩,
        ⟨"quoteMaxPacketAmount", .bigInteger, false, none⟩,
        ⟨"quoteMinExchangeRateNumerator", .bigInteger, false, none⟩,
        ⟨"quoteMinExchangeRateDenominator", .bigInteger, false, none⟩,
        ⟨"quoteLowExchangeRateEstimateNumerator", .bigInteger, false, none⟩,
        ⟨"quoteLowExchangeRateEstimateDenominator", .bigInteger, false, none⟩,
        ⟨"quoteHighExchangeRateEstimateNumerator", .bigInteger, false, none⟩,
        ⟨"quoteHighExchangeRateEstimateDenominator", .bigInteger, false, none⟩,
        ⟨"accountId", .uuid, true, none⟩,
        ⟨"assetId", .uuid, true, none⟩,
        ⟨"createdAt", .timestamp, false, some .nowDefault⟩,
        ⟨"updatedAt", .timestamp, false, some .nowDefault⟩ ],
    primaryKey := ["id"],
    indexes := [["state"], ["accountId", "createdAt", "id"]],
    foreignKeys := [("accountId", "accounts.id"), ("assetId", "assets.id")] }

/-- Look a column up by name. -/
def colOf (t : TableDef) (n : String) : Option Column :=
  t.columns.find? (fun c => c.name == n)

/-- The type of a named column, when present. -/
def colType (t : TableDef) (n : String) : Option ColType :=
  (colOf t n).map Column.type

/-- A named column exists and admits NULL. -/
def isNullable (t : TableDef) (n : String) : Bool :=
  match colOf t n with
  | some c => !c.notNullable
  | none => false

/-- A named column exists and is NOT NULL. -/
def isRequired (t : TableDef) (n : String) : Bool :=
  match colOf t n with
  | some c => c.notNullable
  | none => false

/-- A database schema: tables by name, newest first. -/
def Schema := List (String × TableDef)

instance : DecidableEq Schema := by
  unfold Schema
  infer_instance

/-- `knex.schema.createTable`: fails if a table of that name already exists. -/
def createTable (name : String) (t : TableDef) (s : Schema) :
    Except String Schema :=
  if (List.lookup name s).isSome then .error "table already exists"
  else .ok ((name, t) :: s)

/-- `knex.schema.dropTableIfExists`: removes the table when present, does
nothing (and does not fail) otherwise. -/
def dropTableIfExists (name : String) (s : Schema) : Schema :=
  s.filter (fun e => e.1 ≠ name)

/-- `exports.up` of the migration. -/
def migrationUp (s : Schema) : Except String Schema :=
  createTable "outgoingPayments" outgoingPaymentsTable s

/-- `exports.down` of the migration. -/
def migrationDown (s : Schema) : Schema :=
  dropTableIfExists "outgoingPayments" s

/-! ## Row admissibility (what the schema lets one store) -/

/-- A runtime value to store in a column. -/
inductive DbValue
  | nullV
  | uuidV (s : String)
  | stringV (s : String)
  | intV (n : Int)
  | bigintV (n : Int)
  | timestampV (t : Nat)
deriving DecidableEq, Repr

/-- A non-null value fits a column type. -/
def valueFitsType : ColType → DbValue → Bool
  | .uuid, .uuidV _ => true
  | .string, .stringV _ => true
  | .integer, .intV _ => true
  | .bigInteger, .bigintV _ => true
  | .timestamp, .timestampV _ => true
  | _, _ => false

/-- A column accepts a value: NULL only when nullable, otherwise the value
must fit the column's type. -/
def columnAccepts (c : Column) (v : DbValue) : Bool :=
  match v with
  | .nullV => !c.notNullable
  | _ => valueFitsType c.type v

/-- A row (an assignment of a value to every column name) is storable in a
table when every column accepts its value. -/
def rowAdmissible (t : TableDef) (row : String → DbValue) : Bool :=
  t.columns.all (fun c => columnAccepts c (row c.name))

/-- A freshly created (pre-quote) payment row: a state, zero attempts, no
quote columns, no error; every nullable column left NULL. -/
def pendingRow : String → DbValue
  | "id" => .uuidV "9a8b7c6d-1e2f-4a3b-8c4d-5e6f7a8b9c0d"
  | "state" => .stringV "PENDING"
  | "stateAttempts" => .intV 0
  | "accountId" => .uuidV "11111111-2222-4333-8444-555555555555"
  | "assetId" => .uuidV "aaaaaaaa-bbbb-4ccc-8ddd-eeeeeeeeeeee"
  | _ => .nullV

/-- The six persisted exchange-rate columns. -/
def rateColumns : List String :=
  [ "quoteMinExchangeRateNumerator",
    "quoteMinExchangeRateDenominator",
    "quoteLowExchangeRateEstimateNumerator",
    "quoteLowExchangeRateEstimateDenominator",
    "quoteHighExchangeRateEstimateNumerator",
    "quoteHighExchangeRateEstimateDenominator" ]

/-! ## Claims about the migration -/

/-- When the up migration succeeds, the table was absent and the new schema is
exactly the old one with the `outgoingPayments` table prepended. -/
theorem migrationUp_ok {s s' : Schema} (h : migrationUp s = .ok s') :
    List.lookup "outgoingPayments" s = none ∧
    s' = ("outgoingPayments", outgoingPaymentsTable) :: s := by
  unfold migrationUp createTable at h
  cases hcase : List.lookup "outgoingPayments" s with
  | some t => rw [hcase] at h; simp at h
  | none =>
    rw [hcase] at h
    simp only [Option.isSome_none, Bool.false_eq_true, if_false,
      Except.ok.injEq] at h
    exact ⟨rfl, h.symm⟩

/-- Filtering out a key that a lookup does not find leaves the schema
unchanged. -/
theorem filter_ne_of_lookup_none {k : String} {s : Schema}
    (h : List.lookup k s = none) : s.filter (fun e => e.1 ≠ k) = s := by
  induction s with
  | nil => rfl
  | cons hd tl ih =>
    cases hbeq : (k == hd.1) with
    | true =>
      simp only [List.lookup, hbeq] at h
      exact Option.noConfusion h
    | false =>
      simp only [List.lookup, hbeq] at h
      have hne : hd.1 ≠ k := by
        intro he; rw [he] at hbeq; simp at hbeq
      have hp : (fun (e : String × TableDef) => decide (e.1 ≠ k)) hd = true := by
        simpa using hne
      rw [List.filter_cons, if_pos hp, ih h]

/-- C1, counterexample: running the migration on the empty schema produces the
`outgoingPayments` table, and that table has no composite index on
`(sourceAccountId, createdAt, id)` — the claimed index column does not even
exist — so the claim as stated is false. -/
theorem C1_counterexample :
    migrationUp [] = .ok [("outgoingPayments", outgoingPaymentsTable)] ∧
    ["sourceAccountId", "createdAt", "id"] ∉ outgoingPaymentsTable.indexes ∧
    colOf outgoingPaymentsTable "sourceAccountId" = none := by
  refine ⟨rfl, by decide, by decide⟩

/-- C1, amended: every schema produced by running the migration's up function
contains the `outgoingPayments` table with an index on `state` and a composite
index on `(accountId, createdAt, id)` — the owning-account column is named
`accountId`, not `sourceAccountId`. -/
theorem C1_indexes (s s' : Schema) (h : migrationUp s = .ok s') :
    List.lookup "outgoingPayments" s' = some outgoingPaymentsTable ∧
    ["state"] ∈ outgoingPaymentsTable.indexes ∧
    ["accountId", "createdAt", "id"] ∈ outgoingPaymentsTable.indexes := by
  obtain ⟨-, rfl⟩ := migrationUp_ok h
  exact ⟨rfl, by decide, by decide⟩

/-- C1, witness: applying the amended theorem to the empty schema. -/
theorem C1_indexes_witness :
    List.lookup "outgoingPayments"
        [("outgoingPayments", outgoingPaymentsTable)] =
      some outgoingPaymentsTable ∧
    ["state"] ∈ outgoingPaymentsTable.indexes ∧
    ["accountId", "createdAt", "id"] ∈ outgoingPaymentsTable.indexes :=
  C1_indexes [] [("outgoingPayments", outgoingPaymentsTable)] rfl

/-- C2: each of the six persisted exchange-rate fields (minExchangeRate, the
low estimate, the high estimate) is a pair of bigInteger numerator/denominator
columns, and no column of the persisted record has a floating-point type. -/
theorem C2_rates_exact_rational :
    (∀ n ∈ rateColumns, colType outgoingPaymentsTable n = some .bigInteger) ∧
    (∀ c ∈ outgoingPaymentsTable.columns,
      c.type ≠ .float ∧ c.type ≠ .decimal) := by
  decide

/-- C3, counterexample: the persisted record has no `sendAmountAssetCode` and
no `sendAmountAssetScale` column, so sendAmount is not stored as a full Amount
(value, assetCode, assetScale); the claim as stated is false. -/
theorem C3_counterexample :
    colOf outgoingPaymentsTable "sendAmountAssetCode" = none ∧
    colOf outgoingPaymentsTable "sendAmountAssetScale" = none := by
  decide

/-- C3, amended: the persisted record stores receiveAmount as a full Amount
(value, assetCode, assetScale) but stores only the value of sendAmount
(`sendAmountValue`); there are no sendAmount assetCode/assetScale columns. -/
theorem C3_amount_columns :
    colType outgoingPaymentsTable "receiveAmountValue" = some .bigInteger ∧
    colType outgoingPaymentsTable "receiveAmountAssetCode" = some .string ∧
    colType outgoingPaymentsTable "receiveAmountAssetScale" = some .integer ∧
    colType outgoingPaymentsTable "sendAmountValue" = some .bigInteger ∧
    colOf outgoingPaymentsTable "sendAmountAssetCode" = none ∧
    colOf outgoingPaymentsTable "sendAmountAssetScale" = none := by
  decide

/-- C4, counterexample: the persisted record has no column named
`receivingPaymentPointer`, so the claim as stated is false. -/
theorem C4_counterexample :
    colOf outgoingPaymentsTable "receivingPaymentPointer" = none := by
  decide

/-- C4, amended: the destination-reference string fields of the persisted
record are named `receivingAccount` and `receivingPayment`. -/
theorem C4_destination_columns :
    colType outgoingPaymentsTable "receivingAccount" = some .string ∧
    colType outgoingPaymentsTable "receivingPayment" = some .string := by
  decide

/-- C5: every quote-related column and the error column are nullable, while
id, state, stateAttempts (defaulting to 0), accountId and assetId are
non-nullable, and a pre-quote row — a state, zero attempts, no quote, no
error — is storable. -/
theorem C5_pre_quote_storable :
    isNullable outgoingPaymentsTable "quoteTimestamp" = true ∧
    isNullable outgoingPaymentsTable "quoteTargetType" = true ∧
    isNullable outgoingPaymentsTable "quoteMaxPacketAmount" = true ∧
    (∀ n ∈ rateColumns, isNullable outgoingPaymentsTable n = true) ∧
    isNullable outgoingPaymentsTable "error" = true ∧
    isRequired outgoingPaymentsTable "id" = true ∧
    isRequired outgoingPaymentsTable "state" = true ∧
    isRequired outgoingPaymentsTable "stateAttempts" = true ∧
    (colOf outgoingPaymentsTable "stateAttempts").bind Column.default =
      some (.intDefault 0) ∧
    isRequired outgoingPaymentsTable "accountId" = true ∧
    isRequired outgoingPaymentsTable "assetId" = true ∧
    rowAdmissible outgoingPaymentsTable pendingRow = true := by
  decide

/-- C8: `exports.down` drops exactly the `outgoingPayments` table that
`exports.up` creates: whenever up succeeds it has prepended exactly that
table and down restores the prior schema, and down on a schema without the
table is a no-op rather than an error. -/
theorem C8_up_down_roundtrip :
    (∀ s s' : Schema, migrationUp s = .ok s' →
      s' = ("outgoingPayments", outgoingPaymentsTable) :: s ∧
      migrationDown s' = s) ∧
    (∀ s : Schema, List.lookup "outgoingPayments" s = none →
      migrationDown s = s) := by
  constructor
  · intro s s' h
    obtain ⟨hnone, rfl⟩ := migrationUp_ok h
    refine ⟨rfl, ?_⟩
    unfold migrationDown dropTableIfExists
    rw [List.filter_cons, if_neg (by simp)]
    exact filter_ne_of_lookup_none hnone
  · intro s h
    exact filter_ne_of_lookup_none h

/-- C8, witness: running up then down on the empty schema returns the empty
schema, and down on the empty schema (which lacks the table) is a no-op. -/
theorem C8_up_down_roundtrip_witness :
    migrationDown [("outgoingPayments", outgoingPaymentsTable)] = ([] : Schema) ∧
    migrationDown ([] : Schema) = ([] : Schema) :=
  ⟨(C8_up_down_roundtrip.1 [] [("outgoingPayments", outgoingPaymentsTable)]
      rfl).2,
    C8_up_down_roundtrip.2 [] rfl⟩

/-! ## Quote Engine (modelled from the spec) -/

/-- The quote target kind: pay a fixed source amount, or deliver a fixed
destination amount. -/
inductive TargetType
  | FixedSend
  | FixedDelivery
deriving DecidableEq, Repr

/-- Errors of the quote engine, per the spec's taxonomy. -/
inductive QuoteError
  | InvalidRateBounds
  | ZeroRate
  | PacketTooSmall
  | AmountTooSmall
deriving DecidableEq, Repr

/-- A produced quote: target kind, packet ceiling, the guaranteed minimum
exchange rate, the low/high estimated-rate envelope, and both resulting
amounts (in source- and destination-asset base units). -/
structure Quote where
  targetType : TargetType
  maxPacketAmount : ℤ
  minExchangeRate : ℚ
  estimatedRateLow : ℚ
  estimatedRateHigh : ℚ
  sendAmount : ℤ
  receiveAmount : ℤ
deriving DecidableEq, Repr

/-- Modelled from the spec: the guaranteed minimum exchange rate is the
probed low rate reduced by the configured slippage tolerance (§4.1: "derived
by applying a configured slippage tolerance (a fraction, e.g. 1%) to
`probedRateLow`"). Rates are exact rationals; no floating point. -/
def minExchangeRateOf (probedRateLow slippage : ℚ) : ℚ :=
  probedRateLow * (1 - slippage)

/-- Modelled from the spec: the Quote Engine of §4.1, whose implementation is
not among the provided sources. Validates the probed rate bounds and the
packet ceiling, derives `minExchangeRate` from `probedRateLow` and the
slippage tolerance, and computes the counterpart amount rounding against the
payer: `floor` for FixedSend, `ceil` for FixedDelivery. Pure function of its
inputs. -/
def quoteEngine (targetType : TargetType) (targetAmount : ℤ)
    (probedRateLow probedRateHigh slippage : ℚ) (maxPacketAmount : ℤ) :
    Except QuoteError Quote :=
  if probedRateLow > probedRateHigh then .error .InvalidRateBounds
  else if probedRateLow ≤ 0 then .error .ZeroRate
  else if maxPacketAmount < 1 then .error .PacketTooSmall
  else
    let minER := minExchangeRateOf probedRateLow slippage
    match targetType with
    | .FixedSend =>
      let recv := ⌊(targetAmount : ℚ) * minER⌋
      if recv = 0 then .error .AmountTooSmall
      else .ok ⟨.FixedSend, maxPacketAmount, minER, probedRateLow,
        probedRateHigh, targetAmount, recv⟩
    | .FixedDelivery =>
      let send := ⌈(targetAmount : ℚ) / minER⌉
      if send = 0 then .error .AmountTooSmall
      else .ok ⟨.FixedDelivery, maxPacketAmount, minER, probedRateLow,
        probedRateHigh, send, targetAmount⟩

/-- The quote of the spec's worked example: sendAmount=10000,
probedRateLow=9/10, probedRateHigh=92/100, 1% slippage, packet ceiling 1000. -/
def exampleQuote : Quote :=
  { targetType := .FixedSend,
    maxPacketAmount := 1000,
    minExchangeRate := 891/1000,
    estimatedRateLow := 9/10,
    estimatedRateHigh := 92/100,
    sendAmount := 10000,
    receiveAmount := 8910 }

/-- C6: every quote the engine produces rounds against the payer — for
FixedSend the receive amount is `floor(sendAmount * minExchangeRate)`, for
FixedDelivery the send amount is `ceil(deliveryAmount / minExchangeRate)` —
and `minExchangeRate` is the slippage-reduced probed low rate. -/
theorem C6_quote_rounding (tt : TargetType) (amt : ℤ)
    (rl rh sl : ℚ) (mp : ℤ) (q : Quote)
    (h : quoteEngine tt amt rl rh sl mp = .ok q) :
    q.minExchangeRate = rl * (1 - sl) ∧
    (tt = .FixedSend →
      q.sendAmount = amt ∧
      q.receiveAmount = ⌊(q.sendAmount : ℚ) * q.minExchangeRate⌋) ∧
    (tt = .FixedDelivery →
      q.receiveAmount = amt ∧
      q.sendAmount = ⌈(q.receiveAmount : ℚ) / q.minExchangeRate⌉) := by
  unfold quoteEngine minExchangeRateOf at h
  split at h
  · exact absurd h (by simp)
  · split at h
    · exact absurd h (by simp)
    · split at h
      · exact absurd h (by simp)
      · cases tt with
        | FixedSend =>
          simp only at h
          split at h
          · exact absurd h (by simp)
          · simp only [Except.ok.injEq] at h
            subst h
            refine ⟨rfl, fun _ => ⟨rfl, rfl⟩, fun hc => TargetType.noConfusion hc⟩
        | FixedDelivery =>
          simp only at h
          split at h
          · exact absurd h (by simp)
          · simp only [Except.ok.injEq] at h
            subst h
            refine ⟨rfl, fun hc => TargetType.noConfusion hc, fun _ => ⟨rfl, rfl⟩⟩

/-- C6, witness: the spec's example — sendAmount=10000, probedRateLow=0.90,
probedRateHigh=0.92, 1% slippage — yields minExchangeRate=0.891 and
receiveAmount = floor(10000 * 0.891) = 8910. -/
theorem C6_quote_rounding_witness :
    quoteEngine .FixedSend 10000 (9/10) (92/100) (1/100) 1000 =
      .ok exampleQuote ∧
    exampleQuote.minExchangeRate = 891/1000 ∧
    exampleQuote.receiveAmount = 8910 ∧
    exampleQuote.receiveAmount =
      ⌊(exampleQuote.sendAmount : ℚ) * exampleQuote.minExchangeRate⌋ := by
  have h : quoteEngine .FixedSend 10000 (9/10) (92/100) (1/100) 1000 =
      .ok exampleQuote := by
    unfold quoteEngine minExchangeRateOf
    rw [if_neg (by norm_num), if_neg (by norm_num), if_neg (by norm_num)]
    simp only
    rw [show ⌊((10000 : ℤ) : ℚ) * ((9/10 : ℚ) * (1 - 1/100))⌋ = 8910 by norm_num]
    rw [if_neg (by norm_num),
      show (9/10 : ℚ) * (1 - 1/100) = 891/1000 by norm_num]
    rfl
  exact ⟨h, rfl, rfl,
    ((C6_quote_rounding .FixedSend 10000 (9/10) (92/100) (1/100) 1000
      exampleQuote h).2.1 rfl).2⟩

/-! ## Payment Lifecycle State Machine (modelled from the spec) -/

/-- The payment states of §4.2. -/
inductive PaymentState
  | Pending
  | Quoted
  | Sending
  | Completed
  | Failed
  | Cancelled
deriving DecidableEq, Repr

/-- Lifecycle errors, per the spec's taxonomy. -/
inductive LifecycleError
  | AlreadyTerminal
  | TooLate
  | Conflict
deriving DecidableEq, Repr

/-- Events driving `advance`, from §4.2's transition table. -/
inductive LifecycleEvent
  | quoteSucceeded (q : Quote)
  | quoteFailed (e : String)
  | beginTransmission
  | delivered
  | transientFailure (e : String)
  | fatalFailure (e : String)
  | cancelRequested

/-- A fixed-point asset amount, per §3's data model. -/
structure Amount where
  value : ℤ
  assetCode : String
  assetScale : ℕ
deriving DecidableEq, Repr

/-- The in-memory outgoing payment the state machine owns, per §3. -/
structure Payment where
  state : PaymentState
  error : Option String
  stateAttempts : ℕ
  sendAmount : Option Amount
  receiveAmount : Option Amount
  quote : Option Quote

/-- Completed, Failed and Cancelled are terminal. -/
def isTerminal : PaymentState → Bool
  | .Completed => true
  | .Failed => true
  | .Cancelled => true
  | _ => false

/-- Modelled from the spec: `advance`, the only mutator of a payment, whose
implementation is not among the provided sources. Implements §4.2's
transition table: terminal states absorb every event and report
`AlreadyTerminal`; transient failures in Sending retry up to `maxAttempts`
before forcing Failed; cancellation is permitted only before Sending. Events
not matching the current state leave the payment unchanged. -/
def advance (maxAttempts : ℕ) (p : Payment) (ev : LifecycleEvent) :
    Payment × Option LifecycleError :=
  if isTerminal p.state then (p, some .AlreadyTerminal)
  else
    match p.state, ev with
    | .Pending, .quoteSucceeded q =>
      ({ p with
          state := .Quoted
          quote := some q
          stateAttempts := 0
          error := none }, none)
    | .Pending, .quoteFailed e =>
      ({ p with state := .Failed, error := some e, stateAttempts := 0 }, none)
    | .Quoted, .beginTransmission =>
      ({ p with state := .Sending, stateAttempts := 0 }, none)
    | .Sending, .delivered =>
      ({ p with state := .Completed, error := none, stateAttempts := 0 }, none)
    | .Sending, .transientFailure e =>
      if p.stateAttempts ≥ maxAttempts then
        ({ p with state := .Failed, error := some e, stateAttempts := 0 }, none)
      else
        ({ p with stateAttempts := p.stateAttempts + 1, error := some e }, none)
    | .Sending, .fatalFailure e =>
      ({ p with state := .Failed, error := some e, stateAttempts := 0 }, none)
    | .Pending, .cancelRequested =>
      ({ p with state := .Cancelled, stateAttempts := 0 }, none)
    | .Quoted, .cancelRequested =>
      ({ p with state := .Cancelled, stateAttempts := 0 }, none)
    | .Sending, .cancelRequested => (p, some .TooLate)
    | _, _ => (p, none)

/-- C7: once a payment is in a terminal state (Completed, Failed or
Cancelled), any further `advance` call leaves state, error and both amounts
unchanged and reports `LifecycleError.AlreadyTerminal`. -/
theorem C7_terminal_immutable (ma : ℕ) (p : Payment) (ev : LifecycleEvent)
    (h : p.state = .Completed ∨ p.state = .Failed ∨ p.state = .Cancelled) :
    (advance ma p ev).1.state = p.state ∧
    (advance ma p ev).1.error = p.error ∧
    (advance ma p ev).1.sendAmount = p.sendAmount ∧
    (advance ma p ev).1.receiveAmount = p.receiveAmount ∧
    (advance ma p ev).2 = some .AlreadyTerminal := by
  have ht : isTerminal p.state = true := by
    rcases h with h | h | h <;> rw [h] <;> rfl
  unfold advance
  rw [if_pos ht]
  exact ⟨rfl, rfl, rfl, rfl, rfl⟩

/-- A payment that has already completed. -/
def completedPayment : Payment :=
  { state := .Completed,
    error := none,
    stateAttempts := 0,
    sendAmount := some ⟨10000, "USD", 2⟩,
    receiveAmount := some ⟨8910, "EUR", 2⟩,
    quote := some exampleQuote }

/-- C7, witness: a cancel request on a completed payment changes nothing and
reports AlreadyTerminal. -/
theorem C7_terminal_immutable_witness :
    (advance 3 completedPayment .cancelRequested).1.state =
      completedPayment.state ∧
    (advance 3 completedPayment .cancelRequested).1.error =
      completedPayment.error ∧
    (advance 3 completedPayment .cancelRequested).1.sendAmount =
      completedPayment.sendAmount ∧
    (advance 3 completedPayment .cancelRequested).1.receiveAmount =
      completedPayment.receiveAmount ∧
    (advance 3 completedPayment .cancelRequested).2 =
      some .AlreadyTerminal :=
  C7_terminal_immutable 3 completedPayment .cancelRequested (Or.inl rfl)

/-! ## Payment-pointer detail route (frontend) -/

/-- Asset fields the route reads. -/
structure AssetInfo where
  id : String
  code : String
  scale : ℕ
  withdrawalThreshold : Option ℤ
deriving DecidableEq, Repr

/-- A payment pointer as returned by the API layer. -/
structure PaymentPointer where
  id : String
  url : String
  publicName : Option String
  status : String
  createdAt : String
  asset : AssetInfo
deriving DecidableEq, Repr

/-- Hexadecimal digit, either case. -/
def isHexDigit (c : Char) : Bool :=
  c.isDigit || ('a' ≤ c && c ≤ 'f') || ('A' ≤ c && c ≤ 'F')

/-- Split a character list on `'-'` separators. -/
def splitOnDash : List Char → List (List Char)
  | [] => [[]]
  | c :: rest =>
    let r := splitOnDash rest
    if c = '-' then [] :: r
    else
      match r with
      | [] => [[c]]
      | g :: gs => (c :: g) :: gs

/-- `z.string().uuid()`'s shape check: five dash-separated hexadecimal groups
of lengths 8-4-4-4-12. -/
def isValidUUID (s : String) : Bool :=
  match splitOnDash s.toList with
  | [a, b, c, d, e] =>
    a.length == 8 && b.length == 4 && c.length == 4 && d.length == 4 &&
      e.length == 12 && (a ++ b ++ c ++ d ++ e).all isHexDigit
  | _ => false

/-- What the loader produces: a thrown HTTP response or the JSON payload. -/
inductive LoaderResult
  | thrown (status : ℕ) (statusText : String)
  | ok (paymentPointer : PaymentPointer)
deriving DecidableEq, Repr

/-- The route's `loader`, with the API call `getPaymentPointer` and the
locale rendering of dates passed in as collaborators. The second component
records the ids `getPaymentPointer` was invoked with. -/
def loader (getPaymentPointer : String → Option PaymentPointer)
    (toLocaleString : String → String)
    (paymentPointerIdParam : Option String) :
    LoaderResult × List String :=
  match paymentPointerIdParam with
  | none => (.thrown 400 "Invalid payment pointer ID.", [])
  | some s =>
    if isValidUUID s then
      match getPaymentPointer s with
      | none => (.thrown 404 "Payment pointer not found.", [s])
      | some pp =>
        (.ok { pp with createdAt := toLocaleString pp.createdAt }, [s])
    else (.thrown 400 "Invalid payment pointer ID.", [])

/-- Form data: the string key/value pairs of the POSTed form. -/
abbrev FormData := List (String × String)

/-- Zod field errors: per-field lists of messages. -/
abbrev FieldErrors := List (String × List String)

/-- The result of `updatePaymentPointer` (`undefined` is modelled by the
caller passing `none`). -/
structure UpdateResponse where
  success : Bool
  message : Option String
deriving DecidableEq, Repr

/-- What the action produces: a 400 with errors, or the success redirect. -/
inductive ActionOutcome
  | badRequest (fieldErrors : FieldErrors) (message : List String)
  | redirectWithSuccess (content : String) (location : String)
deriving DecidableEq, Repr

/-- The route's `action`, with schema validation and the API call
`updatePaymentPointer` passed in as collaborators (`α` is the validated-data
type of `updatePaymentPointerSchema`). The second component records the data
`updatePaymentPointer` was invoked with. -/
def action {α : Type}
    (validate : FormData → Except FieldErrors α)
    (updatePaymentPointer : α → Option UpdateResponse)
    (formData : FormData) :
    ActionOutcome × List α :=
  match validate formData with
  | .error fieldErrors => (.badRequest fieldErrors [], [])
  | .ok data =>
    match updatePaymentPointer data with
    | some r =>
      if r.success then
        (.redirectWithSuccess "Payment pointer was updated" ".", [data])
      else
        (.badRequest []
          [r.message.getD
            "Could not update the payment pointer. Please try again!"],
          [data])
    | none =>
      (.badRequest []
        ["Could not update the payment pointer. Please try again!"], [data])

/-- C9: the loader throws 400 on a missing or non-UUID id without consulting
`getPaymentPointer`, throws 404 exactly when the lookup finds nothing, and
otherwise returns the pointer with only `createdAt` transformed. -/
theorem C9_loader_behavior (lookup : String → Option PaymentPointer)
    (fmt : String → String) :
    (loader lookup fmt none =
      (.thrown 400 "Invalid payment pointer ID.", [])) ∧
    (∀ s, isValidUUID s = false →
      loader lookup fmt (some s) =
        (.thrown 400 "Invalid payment pointer ID.", [])) ∧
    (∀ s, isValidUUID s = true →
      ((loader lookup fmt (some s)).1 =
          .thrown 404 "Payment pointer not found." ↔ lookup s = none)) ∧
    (∀ s pp, isValidUUID s = true → lookup s = some pp →
      loader lookup fmt (some s) =
        (.ok { pp with createdAt := fmt pp.createdAt }, [s])) := by
  refine ⟨rfl, ?_, ?_, ?_⟩
  · intro s hs
    simp [loader, hs]
  · intro s hs
    cases hcase : lookup s with
    | none => simp [loader, hs, hcase]
    | some pp => simp [loader, hs, hcase]
  · intro s pp hs hpp
    simp [loader, hs, hpp]

/-- A sample asset for the route witnesses. -/
def sampleAsset : AssetInfo :=
  { id := "5c0d1e2f-3a4b-4c5d-8e6f-7a8b9c0d1e2f",
    code := "USD",
    scale := 2,
    withdrawalThreshold := none }

/-- A sample payment pointer for the route witnesses. -/
def samplePaymentPointer : PaymentPointer :=
  { id := "3f2e1d0c-9b8a-4765-8321-0fedcba98765",
    url := "https://ilp.rafiki.money/pp",
    publicName := some "Shop",
    status := "ACTIVE",
    createdAt := "2023-05-01T12:00:00.000Z",
    asset := sampleAsset }

/-- A lookup that knows exactly the sample payment pointer. -/
def sampleLookup : String → Option PaymentPointer := fun s =>
  if s = "3f2e1d0c-9b8a-4765-8321-0fedcba98765" then some samplePaymentPointer
  else none

/-- A locale rendering of dates for the route witnesses. -/
def sampleFmt : String → String := fun s => s ++ " GMT"

/-- C9, witness: looking the sample pointer up by its valid UUID returns it
with only `createdAt` transformed, after one `getPaymentPointer` call. -/
theorem C9_loader_behavior_witness :
    loader sampleLookup sampleFmt
        (some "3f2e1d0c-9b8a-4765-8321-0fedcba98765") =
      (.ok { samplePaymentPointer with
              createdAt := sampleFmt samplePaymentPointer.createdAt },
        ["3f2e1d0c-9b8a-4765-8321-0fedcba98765"]) :=
  (C9_loader_behavior sampleLookup sampleFmt).2.2.2
    "3f2e1d0c-9b8a-4765-8321-0fedcba98765" samplePaymentPointer
    (by decide) (by rfl)

/-- C10: the action performs no mutation on invalid input — a failed
validation returns 400 carrying the field errors with `updatePaymentPointer`
never invoked; the update runs exactly once when validation succeeds; and a
success redirect is returned only when the update call reports success. -/
theorem C10_action_behavior {α : Type}
    (validate : FormData → Except FieldErrors α)
    (update : α → Option UpdateResponse) (fd : FormData) :
    (∀ fe, validate fd = .error fe →
      action validate update fd = (.badRequest fe [], [])) ∧
    (∀ d, validate fd = .ok d → (action validate update fd).2 = [d]) ∧
    (∀ c l, (action validate update fd).1 = .redirectWithSuccess c l →
      ∃ d r, validate fd = .ok d ∧ update d = some r ∧ r.success = true ∧
        c = "Payment pointer was updated") := by
  refine ⟨?_, ?_, ?_⟩
  · intro fe hfe
    simp [action, hfe]
  · intro d hd
    cases hup : update d with
    | none => simp [action, hd, hup]
    | some r =>
      by_cases hs : r.success
      · simp [action, hd, hup, hs]
      · simp [action, hd, hup, hs]
  · intro c l hred
    cases hv : validate fd with
    | error fe => simp [action, hv] at hred
    | ok d =>
      cases hup : update d with
      | none => simp [action, hv, hup] at hred
      | some r =>
        by_cases hs : r.success
        · simp only [action, hv, hup, if_pos hs] at hred
          obtain ⟨hc, -⟩ := ActionOutcome.redirectWithSuccess.inj hred
          exact ⟨d, r, rfl, hup, hs, hc.symm⟩
        · simp [action, hv, hup, hs] at hred

/-- A validator for the witness: the form must carry a status field. -/
def sampleValidate : FormData → Except FieldErrors (String × String) :=
  fun fd =>
    match List.lookup "id" fd, List.lookup "status" fd with
    | some i, some st => .ok (i, st)
    | _, _ => .error [("status", ["Required"])]

/-- An update call for the witness: always succeeds. -/
def sampleUpdate : String × String → Option UpdateResponse :=
  fun _ => some { success := true, message := none }

/-- C10, witness: an empty form fails validation and returns 400 with the
field errors and no update call made. -/
theorem C10_action_behavior_witness :
    action sampleValidate sampleUpdate [] =
      (.badRequest [("status", ["Required"])] [], []) :=
  (C10_action_behavior sampleValidate sampleUpdate []).1
    [("status", ["Required"])] rfl
